import Mathlib

/-
Verification development for the mersin-proxy HLS reverse proxy
(src/main.py).  Strings are modelled as lists of characters and the
Python string operations used by the source are given faithful
executable counterparts.  Stateful code (the global SEGMENT_MAP and
CACHED_COOKIES) is modelled by explicit state passing; outbound HTTP
is modelled by oracle functions supplied as parameters.
-/

set_option maxRecDepth 20000

abbrev Str := List Char

abbrev SMap := List (Str × Str)

/-- Python `s.startswith(pre)`. -/
def pyStartsWith (l pre : Str) : Bool := pre.isPrefixOf l

/-- Python `s.endswith(suf)`. -/
def pyEndsWith (l suf : Str) : Bool := suf.isSuffixOf l

/-- Index of the first occurrence of `pat` in `l` (Python `s.find(pat)`,
with `none` for "not found"). -/
def findSub (pat : Str) : Str → Option Nat
  | [] => if pat.isPrefixOf ([] : Str) then some 0 else none
  | c :: rest =>
    if pat.isPrefixOf (c :: rest) then some 0
    else (findSub pat rest).map (· + 1)

/-- Python `pat in s`. -/
def pyContains (l pat : Str) : Bool := pat == [] || (findSub pat l).isSome

/-- Fuel-driven worker for `splitOnL`; with fuel at least `l.length` it
computes Python `l.split(sep)` for a non-empty separator. -/
def splitOnFuel (sep : Str) : Nat → Str → List Str
  | 0, l => [l]
  | fuel + 1, l =>
    match findSub sep l with
    | none => [l]
    | some i => l.take i :: splitOnFuel sep fuel (l.drop (i + sep.length))

/-- Python `l.split(sep)` for non-empty `sep` (the source never splits on
an empty separator, which Python rejects). -/
def splitOnL (sep l : Str) : List Str :=
  if sep = [] then [l] else splitOnFuel sep l.length l

/-- Python `sep.join(parts)`. -/
def intercalateL (sep : Str) : List Str → Str
  | [] => []
  | [x] => x
  | x :: xs => x ++ sep ++ intercalateL sep xs

/-- Python `l.replace(old, new)` (all non-overlapping occurrences,
left to right). -/
def pyReplace (l old new : Str) : Str :=
  if old = [] then new ++ l.foldr (fun c acc => c :: (new ++ acc)) []
  else intercalateL new (splitOnL old l)

/-- Characters stripped by Python `str.strip()` with no argument
(ASCII whitespace; the source only ever strips ASCII data). -/
def isPyWs (c : Char) : Bool :=
  c == ' ' || c == '\t' || c == '\n' || c == '\r' || c == '\x0b' || c == '\x0c'

/-- Python `s.strip()`. -/
def pyStripWs (l : Str) : Str :=
  ((l.dropWhile isPyWs).reverse.dropWhile isPyWs).reverse

/-- Python `s.lstrip(c)` for a one-character strip set. -/
def pyLstripChar (c : Char) (l : Str) : Str := l.dropWhile (· == c)

/-- Line-break characters recognised by Python `str.splitlines()`. -/
def lineBreakChar (c : Char) : Bool :=
  c == '\n' || c == '\r' || c == '\x0b' || c == '\x0c' ||
  c == '\x1c' || c == '\x1d' || c == '\x1e' || c == '\x85' ||
  c == '\u2028' || c == '\u2029'

/-- Worker for `pySplitlines`: `acc` is the current (reversed) line. -/
def pySplitlinesAux : Str → Str → List Str
  | [], acc => if acc.isEmpty then [] else [acc.reverse]
  | '\r' :: '\n' :: rest, acc => acc.reverse :: pySplitlinesAux rest []
  | c :: rest, acc =>
    if lineBreakChar c then acc.reverse :: pySplitlinesAux rest []
    else pySplitlinesAux rest (c :: acc)

/-- Python `s.splitlines()`. -/
def pySplitlines (l : Str) : List Str := pySplitlinesAux l []

/-- Value of a hex digit, as used by percent-decoding. -/
def hexVal (c : Char) : Option Nat :=
  if '0' ≤ c ∧ c ≤ '9' then some (c.toNat - '0'.toNat)
  else if 'a' ≤ c ∧ c ≤ 'f' then some (c.toNat - 'a'.toNat + 10)
  else if 'A' ≤ c ∧ c ≤ 'F' then some (c.toNat - 'A'.toNat + 10)
  else none

/-- Unicode replacement character used for undecodable bytes. -/
def repChar : Char := '\uFFFD'

/-- Fuel-driven UTF-8 decoder with replacement of invalid sequences, as
performed by Python `bytes.decode("utf-8", errors="replace")` inside
`urllib.parse.unquote`: each maximal subpart of an ill-formed sequence
(a lead byte together with the valid continuation bytes that follow it)
is replaced by a single U+FFFD, and the offending byte is reprocessed as
a new lead.  The constrained second-byte ranges (`E0: A0-BF`,
`ED: 80-9F`, `F0: 90-BF`, `F4: 80-8F`) exclude overlong forms,
surrogates and code points above U+10FFFF.  Every step consumes at least
one byte, so fuel equal to the byte count suffices. -/
def utf8DecodeFuel : Nat → List Nat → Str
  | 0, _ => []
  | _, [] => []
  | fuel + 1, b :: rest =>
    if b < 0x80 then Char.ofNat b :: utf8DecodeFuel fuel rest
    else if 0xC2 ≤ b ∧ b ≤ 0xDF then
      match rest with
      | [] => [repChar]
      | b2 :: rest2 =>
        if 0x80 ≤ b2 ∧ b2 ≤ 0xBF then
          Char.ofNat ((b - 0xC0) * 64 + (b2 - 0x80)) :: utf8DecodeFuel fuel rest2
        else repChar :: utf8DecodeFuel fuel rest
    else if 0xE0 ≤ b ∧ b ≤ 0xEF then
      match rest with
      | [] => [repChar]
      | b2 :: rest2 =>
        if (if b = 0xE0 then 0xA0 else 0x80) ≤ b2 ∧
            b2 ≤ (if b = 0xED then 0x9F else 0xBF) then
          match rest2 with
          | [] => [repChar]
          | b3 :: rest3 =>
            if 0x80 ≤ b3 ∧ b3 ≤ 0xBF then
              Char.ofNat ((b - 0xE0) * 4096 + (b2 - 0x80) * 64 + (b3 - 0x80)) ::
                utf8DecodeFuel fuel rest3
            else repChar :: utf8DecodeFuel fuel rest2
        else repChar :: utf8DecodeFuel fuel rest
    else if 0xF0 ≤ b ∧ b ≤ 0xF4 then
      match rest with
      | [] => [repChar]
      | b2 :: rest2 =>
        if (if b = 0xF0 then 0x90 else 0x80) ≤ b2 ∧
            b2 ≤ (if b = 0xF4 then 0x8F else 0xBF) then
          match rest2 with
          | [] => [repChar]
          | b3 :: rest3 =>
            if 0x80 ≤ b3 ∧ b3 ≤ 0xBF then
              match rest3 with
              | [] => [repChar]
              | b4 :: rest4 =>
                if 0x80 ≤ b4 ∧ b4 ≤ 0xBF then
                  Char.ofNat ((b - 0xF0) * 262144 + (b2 - 0x80) * 4096 +
                      (b3 - 0x80) * 64 + (b4 - 0x80)) :: utf8DecodeFuel fuel rest4
                else repChar :: utf8DecodeFuel fuel rest3
            else repChar :: utf8DecodeFuel fuel rest2
        else repChar :: utf8DecodeFuel fuel rest
    else repChar :: utf8DecodeFuel fuel rest

/-- UTF-8 decoding with replacement (Python `errors="replace"`). -/
def utf8DecodeReplace (bytes : List Nat) : Str := utf8DecodeFuel bytes.length bytes

/-- Worker for `pyUnquote`: `buf` holds the pending percent-decoded bytes
(in reverse order), flushed through UTF-8 decoding at the next literal
character or at the end of the input. -/
def unquoteAux : List Nat → Str → Str
  | buf, [] => utf8DecodeReplace buf.reverse
  | buf, '%' :: a :: b :: rest =>
    match hexVal a, hexVal b with
    | some ha, some hb => unquoteAux ((ha * 16 + hb) :: buf) rest
    | _, _ => utf8DecodeReplace buf.reverse ++ '%' :: unquoteAux [] (a :: b :: rest)
  | buf, c :: rest => utf8DecodeReplace buf.reverse ++ c :: unquoteAux [] rest

/-- Python `urllib.parse.unquote` (percent-decoding; consecutive escaped
bytes are decoded together as UTF-8 with replacement). -/
def pyUnquote (l : Str) : Str := unquoteAux [] l

/-- UTF-8 byte size of one character. -/
def utf8SizeC (c : Char) : Nat :=
  if c.toNat < 0x80 then 1
  else if c.toNat < 0x800 then 2
  else if c.toNat < 0x10000 then 3
  else 4

/-- Byte length of the modelled payload (Python `len` on the raw bytes,
with text modelled as its UTF-8 encoding). -/
def utf8LenNat (l : Str) : Nat := (l.map utf8SizeC).sum

/-- Lookup in a Python `dict` modelled as an insertion-ordered
association list. -/
def dictGet (m : SMap) (k : Str) : Option Str :=
  (m.find? (fun p => p.1 == k)).map (fun p => p.2)

/-- Assignment `m[k] = v` on a Python `dict`: updates in place if the key
exists, otherwise appends. -/
def dictInsert (m : SMap) (k v : Str) : SMap :=
  if m.any (fun p => p.1 == k) then
    m.map (fun p => if p.1 == k then (k, v) else p)
  else m ++ [(k, v)]

/-- Python truthiness of an optional string (`None` and `""` are falsy). -/
def truthyOpt (o : Option Str) : Bool :=
  match o with
  | none => false
  | some s => s != []

/-- Characters allowed after the first character of a URL scheme
(`urllib.parse.scheme_chars`). -/
def schemeChar (c : Char) : Bool :=
  c.isAlpha || c.isDigit || c == '+' || c == '-' || c == '.'

/-- Result of `urllib.parse.urlsplit`. -/
structure UrlSplit where
  scheme : Str
  netloc : Str
  path : Str
  query : Str
  frag : Str
deriving DecidableEq

/-- Python `urlsplit` removes tab, carriage return and newline before
parsing (`_UNSAFE_URL_BYTES_TO_REMOVE`). -/
def removeUnsafe (l : Str) : Str :=
  l.filter (fun c => !(c == '\t' || c == '\r' || c == '\n'))

/-- Python `urllib.parse.urlsplit(url, scheme=defScheme)`: the value it
computes when it does not raise; `urlsplitRaises` below captures when
CPython raises `ValueError` instead. -/
def urlsplit (url0 defScheme : Str) : UrlSplit :=
  let url := removeUnsafe url0
  let sp :=
    match url.findIdx? (· == ':') with
    | some i =>
      if 0 < i ∧ (url.headD ' ').isAlpha ∧ (url.take i).all schemeChar then
        ((url.take i).map Char.toLower, url.drop (i + 1))
      else (defScheme, url)
    | none => (defScheme, url)
  let nl :=
    if ("//".data).isPrefixOf sp.2 then
      let after := sp.2.drop 2
      match after.findIdx? (fun c => c == '/' || c == '?' || c == '#') with
      | some j => (after.take j, after.drop j)
      | none => (after, [])
    else ([], sp.2)
  let fr :=
    match nl.2.findIdx? (· == '#') with
    | some j => (nl.2.take j, nl.2.drop (j + 1))
    | none => (nl.2, [])
  let pq :=
    match fr.1.findIdx? (· == '?') with
    | some j => (fr.1.take j, fr.1.drop (j + 1))
    | none => (fr.1, [])
  ⟨sp.1, nl.1, pq.1, pq.2, fr.2⟩

/-- Python `urllib.parse.urlunsplit`. -/
def urlunsplit (u : UrlSplit) : Str :=
  let url0 := u.path
  let url1 :=
    if u.netloc ≠ [] ∨ (url0 ≠ [] ∧ ("//".data).isPrefixOf url0) then
      let url' := if url0 ≠ [] ∧ ¬(("/".data).isPrefixOf url0) then '/' :: url0 else url0
      ("//".data) ++ u.netloc ++ url'
    else url0
  let url2 := if u.scheme ≠ [] then u.scheme ++ ':' :: url1 else url1
  let url3 := if u.query ≠ [] then url2 ++ '?' :: u.query else url2
  if u.frag ≠ [] then url3 ++ '#' :: u.frag else url3

/-- `urllib.parse.uses_relative`. -/
def usesRelative : List Str :=
  [[], "ftp".data, "http".data, "gopher".data, "nntp".data, "imap".data,
   "wais".data, "file".data, "https".data, "shttp".data, "mms".data,
   "prospero".data, "rtsp".data, "rtspu".data, "sftp".data, "svn".data,
   "svn+ssh".data, "ws".data, "wss".data]

/-- `urllib.parse.uses_netloc`. -/
def usesNetloc : List Str :=
  [[], "ftp".data, "http".data, "gopher".data, "nntp".data, "telnet".data,
   "imap".data, "wais".data, "file".data, "mms".data, "https".data,
   "shttp".data, "snews".data, "prospero".data, "rtsp".data, "rtspu".data,
   "rsync".data, "svn".data, "svn+ssh".data, "sftp".data, "nfs".data,
   "git".data, "git+ssh".data, "ws".data, "wss".data]

/-- Dot-segment resolution loop of `urljoin` (`'..'` pops, `'.'` is
dropped, anything else is appended). -/
def resolveSegments (segments : List Str) : List Str :=
  segments.foldl
    (fun acc seg =>
      if seg = ("..".data) then acc.dropLast
      else if seg = (".".data) then acc
      else acc ++ [seg])
    []

/-- Python `urllib.parse.urljoin` (standard relative-URL resolution). -/
def urljoin (base url : Str) : Str :=
  if base = [] then url
  else if url = [] then base
  else
    let b := urlsplit base []
    let r := urlsplit url b.scheme
    if r.scheme ≠ b.scheme ∨ usesRelative.contains r.scheme = false then url
    else
      let step : Option Str :=
        if usesNetloc.contains r.scheme then
          if r.netloc ≠ [] then none else some b.netloc
        else some r.netloc
      match step with
      | none => urlunsplit ⟨r.scheme, r.netloc, r.path, r.query, r.frag⟩
      | some netloc =>
        if r.path = [] then
          urlunsplit ⟨r.scheme, netloc, b.path,
            (if r.query = [] then b.query else r.query), r.frag⟩
        else
          let baseParts0 := splitOnL ("/".data) b.path
          let baseParts :=
            if baseParts0.getLastD [] ≠ [] then baseParts0.dropLast else baseParts0
          let segments :=
            if ("/".data).isPrefixOf r.path then splitOnL ("/".data) r.path
            else
              let parts := baseParts ++ splitOnL ("/".data) r.path
              let n := parts.length
              if n ≤ 2 then parts
              else
                parts.take 1 ++ ((parts.drop 1).take (n - 2)).filter (· ≠ []) ++
                  parts.drop (n - 1)
          let resolved :=
            if segments.getLastD [] = ("..".data) ∨ segments.getLastD [] = (".".data) then
              resolveSegments segments ++ [[]]
            else resolveSegments segments
          let joined := intercalateL ("/".data) resolved
          let path' := if joined = [] then "/".data else joined
          urlunsplit ⟨r.scheme, netloc, path', r.query, r.frag⟩

/-- The `Invalid IPv6 URL` validation `urlsplit` applies to the netloc it
extracted: an opening bracket without a closing one or vice versa raises
`ValueError` (with no `//` authority the netloc is empty and the check
passes). -/
def invalidIPv6Netloc (netloc : Str) : Bool :=
  (netloc.contains '[' && !(netloc.contains ']')) ||
  (netloc.contains ']' && !(netloc.contains '['))

/-- Whether CPython `urlsplit(url0, defScheme)` raises.  The bracket
check is exact.  The only other raise is `_checknetloc`, which can fire
only for a non-ASCII netloc (an NFKC-expansion check that lies outside
this embedding), so a non-ASCII netloc is conservatively flagged as
raising as well. -/
def urlsplitRaises (url0 defScheme : Str) : Bool :=
  invalidIPv6Netloc (urlsplit url0 defScheme).netloc ||
  !((urlsplit url0 defScheme).netloc.all (fun c => c.toNat < 0x80))

/-- Whether the call `urljoin(url, original_uri)` at src/main.py line 174
raises in CPython on account of the manifest-supplied URI: after the
empty-argument early returns, `urlsplit(original_uri, bscheme)` raises.
The base is the route's query URL, which must already have survived an
httpx fetch to reach the rewrite loop, so the base-side `urlsplit`
cannot raise there and is not modelled. -/
def urljoinUriRaises (base uri : Str) : Bool :=
  if base = [] then false
  else if uri = [] then false
  else urlsplitRaises uri (urlsplit base []).scheme

/-- The constant `HEADERS` dict of src/main.py (spoofed browser headers). -/
def HEADERS : SMap :=
  [("User-Agent".data, ("Mozilla/5.0 (Linux; Android 10; K) AppleWebKit/537.36 (KHTML, like Gecko) Chrome/132.0.0.0 Mobile Safari/537.36").data),
   ("Referer".data, "https://embedstreams.top/".data),
   ("Origin".data, "https://embedstreams.top".data),
   ("Accept".data, "*/*".data),
   ("Accept-Encoding".data, "identity".data),
   ("Accept-Language".data, "en-GB,en-US;q=0.9,en;q=0.8".data),
   ("Sec-Ch-Ua".data, ("\"Not A(Brand\";v=\"8\", \"Chromium\";v=\"132\"").data),
   ("Sec-Ch-Ua-Mobile".data, "?1".data),
   ("Sec-Ch-Ua-Platform".data, "\"Android\"".data),
   ("Sec-Fetch-Dest".data, "empty".data),
   ("Sec-Fetch-Mode".data, "cors".data),
   ("Sec-Fetch-Site".data, "cross-site".data),
   ("Content-Type".data, "application/json".data),
   ("X-Requested-With".data, "XMLHttpRequest".data),
   ("X-Forwarded-For".data, "127.0.0.1".data)]

/-- Headers sent by `fetch_resource`: `HEADERS.copy()` with
`headers["Cookie"] = cookies` (src/main.py lines 110-111). -/
def fetchHeaders (cookies : Str) : SMap := dictInsert HEADERS ("Cookie".data) cookies

/-- Model of one outbound GET: given the candidate URL, the headers sent
and the 1-based global attempt index, it yields `none` for a transport
error or non-success status (`raise_for_status`) and otherwise the
payload together with the upstream `content-type` header (if any). -/
abbrev FetchOracle := Str → SMap → Nat → Option (Str × Option Str)

/-- Mirror candidate list built at the top of `fetch_resource`
(src/main.py lines 105-109). -/
def mirrorSources (url : Str) : List Str :=
  [url,
   pyReplace url ("rr.buytommy.top".data) ("p2-panel.streamed.su".data),
   pyReplace url ("rr.buytommy.top".data) ("flu.streamed.su".data)]

/-- Default content type when the upstream declares none. -/
def defaultContentType : Str := "application/octet-stream".data

/-- Inner retry loop of `fetch_resource` for one candidate URL: up to
`n` attempts, returning the first success and the updated global
attempt counter (src/main.py lines 114-128). -/
def tryAttempts (oracle : FetchOracle) (hdrs : SMap) (src : Str) :
    Nat → Nat → Option (Str × Str) × Nat
  | 0, idx => (none, idx)
  | n + 1, idx =>
    match oracle src hdrs (idx + 1) with
    | some (content, ctypeHdr) =>
      let ct :=
        if pyEndsWith src (".ts".data) || pyEndsWith src (".js".data) then
          "video/mp2t".data
        else ctypeHdr.getD defaultContentType
      (some (content, ct), idx + 1)
    | none => tryAttempts oracle hdrs src n (idx + 1)

/-- Outer candidate loop of `fetch_resource` (src/main.py lines 113-130). -/
def trySources (oracle : FetchOracle) (hdrs : SMap) (retries : Nat) :
    List Str → Nat → Option (Str × Str) × Nat
  | [], idx => (none, idx)
  | s :: rest, idx =>
    match tryAttempts oracle hdrs s retries idx with
    | (some r, idx') => (some r, idx')
    | (none, idx') => trySources oracle hdrs retries rest idx'

/-- `fetch_resource(url, cookies, retries)` (src/main.py lines 104-130);
`idx0` is the global attempt counter on entry, the second component of
the result the counter after the call, so the call performed
`result.2 - idx0` outbound attempts.  `none` is the failure signal; no
exception escapes. -/
def fetch_resource (oracle : FetchOracle) (url cookies : Str)
    (retries : Nat) (idx0 : Nat) : Option (Str × Str) × Nat :=
  trySources oracle (fetchHeaders cookies) retries (mirrorSources url) idx0

/-- The four required cookie names of `fetch_cookies`
(src/main.py line 73). -/
def requiredCookies : List Str :=
  ["ddg8_".data, "ddg10_".data, "ddg9_".data, "ddg1_".data]

/-- Cookie-header parsing loop of `fetch_cookies`
(src/main.py lines 66-72). -/
def parseSetCookie (s : Str) : SMap :=
  (splitOnL (",".data) s).foldl
    (fun d cookie =>
      let first := (splitOnL (";".data) cookie).headD []
      let parts := splitOnL ("=".data) (pyStripWs first)
      match parts with
      | [name, value] =>
        dictInsert d (pyLstripChar '_' (pyStripWs name)) (pyStripWs value)
      | _ => d)
    []

/-- `"; ".join(f"{key}={cookie_dict.get(key)}" for key in required_cookies
if key in cookie_dict)` (src/main.py lines 74-76). -/
def formatCookies (d : SMap) : Str :=
  intercalateL ("; ".data)
    ((requiredCookies.filter (fun k => (dictGet d k).isSome)).map
      (fun k => k ++ '=' :: (dictGet d k).getD []))

/-- `fetch_cookies()` (src/main.py lines 51-85).  `cached` is the global
`CACHED_COOKIES` slot on entry; `net` models the handshake POST:
`none` is a transport error, `some h` a response whose `set-cookie`
header is `h`.  Returns (result, new cache slot, number of handshake
requests issued). -/
def fetch_cookies (cached : Option Str) (net : Option (Option Str)) :
    Option Str × Option Str × Nat :=
  if truthyOpt cached then (cached, cached, 0)
  else
    match net with
    | none => (none, cached, 1)
    | some setCookieHdr =>
      if truthyOpt setCookieHdr = false then (none, cached, 1)
      else
        let formatted := formatCookies (parseSetCookie (setCookieHdr.getD []))
        if formatted = [] then (none, cached, 1)
        else (some formatted, some formatted, 1)

/-- Failure modes of the manifest-rewriting block of `get_playlist`:
a body without the `#EXTM3U` marker (`HTTPException` "Invalid M3U8
content", line 163), or an exception escaping the line loop — the
`IndexError` raised by `line.split('URI="')[1]` on a key line without a
quoted URI (line 170), or the `ValueError` raised by
`urljoin(url, original_uri)` on a key URI with an invalid authority
(line 174). -/
inductive RewriteError
  | invalidManifest
  | lineRaised
deriving DecidableEq

deriving instance DecidableEq for Except

/-- Quoted URI attribute of a key line:
`line.split('URI="')[1].split('"')[0]` (src/main.py line 170), with
`none` when the first indexing raises. -/
def extractUri (line : Str) : Option Str :=
  ((splitOnL ("URI=\"".data) line).get? 1).map
    (fun after => (splitOnL ("\"".data) after).headD [])

/-- CORS-proxy prefix stripping of a direct-URL line:
`original_url.replace("https://corsproxy.io/?url=", "")`
(src/main.py line 182). -/
def corsStripped (original_url : Str) : Str :=
  pyReplace original_url ("https://corsproxy.io/?url=".data) []

/-- Hard-coded fixed-bucket URL on the panel host, templated with the
`.js`-suffixed segment name (src/main.py lines 186-187). -/
def bucketUrl (segment_name : Str) : Str :=
  ("https://p2-panel.streamed.su/bucket-44677-gjnru5ktoa/".data) ++
    pyReplace segment_name (".ts".data) (".js".data)

/-- Per-line body of the rewrite loop of `get_playlist`
(src/main.py lines 168-189).  Returns the rewritten line and the updated
segment map, or `none` when the line raises: the `IndexError` of the
quoted-URI extraction, or the `ValueError` of
`urljoin(url, original_uri)` (raised after the in-place line rewrite,
but the mutated local line list is discarded by the aborting handler,
so only the map entries inserted so far remain observable). -/
def processLine (url line : Str) (m : SMap) : Option (Str × SMap) :=
  if pyStartsWith line ("#EXT-X-KEY".data) && pyContains line ("URI=".data) then
    match extractUri line with
    | none => none
    | some original_uri =>
      let key_path := pyLstripChar '/' original_uri
      let new_uri := '/' :: key_path
      if urljoinUriRaises url original_uri then none
      else
        some (pyReplace line original_uri new_uri,
          dictInsert m key_path (urljoin url original_uri))
  else if pyStartsWith line ("https://".data) then
    let original_url := pyStripWs line
    let segment_name :=
      pyReplace ((splitOnL ("/".data) original_url).getLastD []) (".js".data) (".ts".data)
    let direct_url := corsStripped original_url
    let mapped :=
      if pyStartsWith direct_url ("https://flu.streamed.su".data) then direct_url
      else bucketUrl segment_name
    some ('/' :: segment_name, dictInsert m segment_name mapped)
  else some (line, m)

/-- The rewrite loop over all manifest lines; on a raising line the map
keeps the entries inserted so far (the exception aborts the handler). -/
def processLines (url : Str) : List Str → SMap → Option (List Str) × SMap
  | [], m => (some [], m)
  | l :: ls, m =>
    match processLine url l m with
    | none => (none, m)
    | some (l', m') =>
      match processLines url ls m' with
      | (some ls', m'') => (some (l' :: ls'), m'')
      | (none, m'') => (none, m'')

/-- The manifest-rewriting block of `get_playlist`
(src/main.py lines 159-191): marker check, `SEGMENT_MAP.clear()`, the
line loop, and the final `"\n".join`.  `m0` is the segment map on entry;
the second component is the segment map after the block. -/
def rewriteManifest (content url : Str) (m0 : SMap) :
    Except RewriteError Str × SMap :=
  if pyContains content ("#EXTM3U".data) = false then
    (Except.error RewriteError.invalidManifest, m0)
  else
    match processLines url (pySplitlines content) [] with
    | (some ls, m) => (Except.ok (intercalateL ("\n".data) ls), m)
    | (none, m) => (Except.error RewriteError.lineRaised, m)

/-- HTTP response as seen by the client (FastAPI `Response` /
`HTTPException` converted to a 500). -/
structure HttpResponse where
  status : Nat
  body : Str
  mediaType : Option Str
  headers : SMap
deriving DecidableEq

/-- The two process-wide mutable globals: `SEGMENT_MAP` and
`CACHED_COOKIES`. -/
structure ProxyState where
  segMap : SMap
  cachedCookies : Option Str
deriving DecidableEq

/-- A uniform 500 error response (FastAPI renders `HTTPException` with
the detail as body; only the status matters to the claims). -/
def errorResponse (detail : Str) : HttpResponse := ⟨500, detail, none, []⟩

/-- Cookie string after `urllib.parse.unquote(cookies)
.replace("%3B+", "; ").replace("%3D", "=")` (src/main.py line 137). -/
def cookieDecoded (raw : Str) : Str :=
  pyReplace (pyReplace (pyUnquote raw) ("%3B+".data) ("; ".data)) ("%3D".data) ("=".data)

/-- The pair-normalisation generator of src/main.py lines 138-142;
`none` models the `IndexError` from `pair.split('=')[1]` on a non-empty
pair without `'='`. -/
def normalizePairs : List Str → Option (List Str)
  | [] => some []
  | p :: ps =>
    if p = [] then normalizePairs ps
    else
      match (splitOnL ("=".data) p).get? 1 with
      | none => none
      | some v =>
        (normalizePairs ps).map
          (fun rest =>
            (pyLstripChar '_' ((splitOnL ("=".data) p).headD []) ++ '=' :: v) :: rest)

/-- Cookie normalisation of `get_playlist` (src/main.py lines 136-142). -/
def normalizeCookies (raw : Str) : Option Str :=
  (normalizePairs (splitOnL ("; ".data) (cookieDecoded raw))).map
    (intercalateL ("; ".data))

/-- Outcome of a `/playlist.m3u8` request: response, final globals, and
the outbound traffic counters (segment-fetch attempts, landing-page
GETs by `fetch_m3u8_url`, handshake POSTs by `fetch_cookies`). -/
structure PlaylistResult where
  resp : HttpResponse
  state : ProxyState
  resourceAttempts : Nat
  locatorCalls : Nat
  handshakeCalls : Nat
deriving DecidableEq

/-- Tail of `get_playlist` after a manifest body was fetched
(src/main.py lines 159-197): decode, rewrite, and answer 200 with the
rewritten text or 500 when the block raises. -/
def finishPlaylist (url content : Str) (st : ProxyState)
    (att loc hs : Nat) : PlaylistResult :=
  let rw := rewriteManifest content url st.segMap
  match rw.1 with
  | Except.ok text =>
    ⟨⟨200, text, some ("application/vnd.apple.mpegurl".data),
        [("Access-Control-Allow-Origin".data, "*".data)]⟩,
      ⟨rw.2, st.cachedCookies⟩, att, loc, hs⟩
  | Except.error _ =>
    ⟨errorResponse ("Error fetching M3U8".data),
      ⟨rw.2, st.cachedCookies⟩, att, loc, hs⟩

/-- The `/playlist.m3u8` route handler `get_playlist(url, cookies)`
(src/main.py lines 132-200).  `locatorResult` models the value found by
`fetch_m3u8_url()` (`none` for "no match or transport error") and
`cookieNet` the handshake POST of `fetch_cookies` as in
`fetch_cookies`.  All internal failures surface as a 500 response. -/
def get_playlist (oracle : FetchOracle) (locatorResult : Option Str)
    (cookieNet : Option (Option Str)) (url rawCookies : Str)
    (st : ProxyState) : PlaylistResult :=
  match normalizeCookies rawCookies with
  | none =>
    ⟨errorResponse ("Error fetching M3U8: list index out of range".data),
      st, 0, 0, 0⟩
  | some ck =>
    let fr := fetch_resource oracle url ck 3 0
    match fr.1 with
    | some (content, _) => finishPlaylist url content st fr.2 0 0
    | none =>
      let cres := fetch_cookies st.cachedCookies cookieNet
      let st' : ProxyState := ⟨st.segMap, cres.2.1⟩
      if truthyOpt locatorResult = false ∨ truthyOpt cres.1 = false then
        ⟨errorResponse ("Could not fetch M3U8 URL or cookies".data),
          st', fr.2, 1, cres.2.2⟩
      else
        let fr2 := fetch_resource oracle (locatorResult.getD [])
          (cres.1.getD []) 3 fr.2
        match fr2.1 with
        | none =>
          ⟨errorResponse ("Error fetching M3U8".data), st', fr2.2, 1, cres.2.2⟩
        | some (content, _) => finishPlaylist url content st' fr2.2 1 cres.2.2

/-- Fallback URL guess for a path missing from the segment map
(src/main.py line 209). -/
def fallbackResourceUrl (path : Str) : Str :=
  ("https://rr.buytommy.top/".data) ++ pyReplace path (".ts".data) (".js".data)

/-- Upstream URL resolution of `get_resource` (src/main.py lines 207-210);
a mapped empty string is falsy in Python and also falls back. -/
def resolveResourceUrl (m : SMap) (path : Str) : Str :=
  match dictGet m path with
  | some u => if u = [] then fallbackResourceUrl path else u
  | none => fallbackResourceUrl path

/-- `Content-Range` value computed on the range path of `get_resource`:
`f"bytes 0-{len(content)-1}/{len(content)}"` (src/main.py line 228). -/
def contentRangeVal (content : Str) : Str :=
  ("bytes 0-".data) ++ (toString ((utf8LenNat content : Int) - 1)).data ++
    ('/' :: (toString (utf8LenNat content)).data)

/-- Outcome of a catch-all `/{path}` request: the response, the (unchanged)
globals, the headers `fetch_resource` sent upstream, the resolved
upstream URL and the number of outbound attempts. -/
structure ResourceResult where
  resp : HttpResponse
  state : ProxyState
  sentHeaders : SMap
  upstreamUrl : Str
  attempts : Nat
deriving DecidableEq

/-- The catch-all route handler `get_resource(path)` (src/main.py lines
202-233).  Note the source builds a local `headers` dict with the
URL-decoded cookie and the inbound `Range` header (lines 212-217) but
never passes it on: `fetch_resource(resource_url, cookies)` receives the
raw cookie string and builds its own headers, so `sentHeaders` is
`fetchHeaders cookies`. -/
def get_resource (oracle : FetchOracle) (path : Str)
    (queryCookies : Option Str) (rangeHeader : Option Str)
    (st : ProxyState) : ResourceResult :=
  let cookies := queryCookies.getD []
  let rurl := resolveResourceUrl st.segMap path
  let fr := fetch_resource oracle rurl cookies 3 0
  let sent := fetchHeaders cookies
  match fr.1 with
  | none => ⟨errorResponse ("Error fetching resource".data), st, sent, rurl, fr.2⟩
  | some (content, ctype) =>
    if truthyOpt rangeHeader then
      ⟨⟨206, content, some ctype,
          [("Access-Control-Allow-Origin".data, "*".data),
           ("Accept-Ranges".data, "bytes".data),
           ("Content-Range".data, contentRangeVal content)]⟩,
        st, sent, rurl, fr.2⟩
    else
      ⟨⟨200, content, some ctype,
          [("Access-Control-Allow-Origin".data, "*".data),
           ("Accept-Ranges".data, "bytes".data)]⟩,
        st, sent, rurl, fr.2⟩

/-- Outbound oracle that always succeeds, used by concrete witnesses. -/
def alwaysOkOracle : FetchOracle :=
  fun _ _ _ => some ("DATA".data, some ("video/mp2t".data))

/-- Outbound oracle that always fails, used by concrete witnesses. -/
def alwaysFailOracle : FetchOracle := fun _ _ _ => none

theorem prefixOf_drop {p l : Str} (h : p.isPrefixOf l = true) :
    p ++ l.drop p.length = l := by
  induction p generalizing l with
  | nil => simp
  | cons a as ih =>
    cases l with
    | nil => simp [List.isPrefixOf] at h
    | cons b bs =>
      simp only [List.isPrefixOf, Bool.and_eq_true, beq_iff_eq] at h
      obtain ⟨rfl, h2⟩ := h
      simpa using ih h2

theorem findSub_spec (pat : Str) {l : Str} {i : Nat}
    (h : findSub pat l = some i) :
    l.take i ++ pat ++ l.drop (i + pat.length) = l := by
  induction l generalizing i with
  | nil =>
    simp only [findSub] at h
    split at h
    · rename_i hp
      cases h
      simpa using prefixOf_drop hp
    · cases h
  | cons c rest ih =>
    simp only [findSub] at h
    split at h
    · rename_i hp
      cases h
      simpa using prefixOf_drop hp
    · rename_i hp
      cases hf : findSub pat rest with
      | none => rw [hf] at h; cases h
      | some j =>
        rw [hf] at h
        simp only [Option.map_some'] at h
        cases h
        have hj := ih hf
        calc (c :: rest).take (j + 1) ++ pat ++ (c :: rest).drop (j + 1 + pat.length)
            = c :: (rest.take j ++ pat ++ rest.drop (j + pat.length)) := by
              simp [List.take_succ_cons, Nat.add_right_comm j 1 pat.length,
                List.drop_succ_cons, List.cons_append]
          _ = c :: rest := by rw [hj]

theorem splitOnFuel_ne_nil (sep : Str) (fuel : Nat) (l : Str) :
    splitOnFuel sep fuel l ≠ [] := by
  cases fuel with
  | zero => simp [splitOnFuel]
  | succ n =>
    simp only [splitOnFuel]
    cases findSub sep l <;> simp

theorem intercalate_splitOnFuel (sep : Str) (fuel : Nat) (l : Str) :
    intercalateL sep (splitOnFuel sep fuel l) = l := by
  induction fuel generalizing l with
  | zero => simp [splitOnFuel, intercalateL]
  | succ n ih =>
    cases hf : findSub sep l with
    | none =>
      have hunf : splitOnFuel sep (n + 1) l = [l] := by simp [splitOnFuel, hf]
      rw [hunf]
      rfl
    | some i =>
      have hunf : splitOnFuel sep (n + 1) l
          = l.take i :: splitOnFuel sep n (l.drop (i + sep.length)) := by
        simp [splitOnFuel, hf]
      rw [hunf]
      cases hsp : splitOnFuel sep n (l.drop (i + sep.length)) with
      | nil => exact absurd hsp (splitOnFuel_ne_nil sep n _)
      | cons x xs =>
        have hstep : intercalateL sep (l.take i :: x :: xs)
            = l.take i ++ sep ++ intercalateL sep (x :: xs) := rfl
        rw [hstep, ← hsp, ih, findSub_spec sep hf]

theorem pyReplace_self (l old : Str) : pyReplace l old old = l := by
  by_cases h : old = []
  · subst h
    have hfold : ∀ (t : Str), List.foldr (fun c acc => c :: acc) [] t = t := by
      intro t
      induction t with
      | nil => rfl
      | cons c cs ih => simp only [List.foldr_cons]; rw [ih]
    simp [pyReplace, hfold]
  · simp only [pyReplace, if_neg h, splitOnL, if_neg h]
    exact intercalate_splitOnFuel old l.length l

theorem find?_map_insert (m : SMap) (k v : Str)
    (hm : m.any (fun q => q.1 == k) = true) :
    (m.map (fun q => if q.1 == k then (k, v) else q)).find? (fun q => q.1 == k)
      = some (k, v) := by
  induction m with
  | nil => simp at hm
  | cons p m ih =>
    by_cases hp : (p.1 == k) = true
    · have hpe : p.1 = k := by simpa using hp
      simp [List.find?, hpe]
    · have hp' : (p.1 == k) = false := by
        cases h : (p.1 == k) with
        | true => exact absurd h hp
        | false => rfl
      simp only [List.any_cons, hp', Bool.false_or] at hm
      simp only [List.map_cons, hp', Bool.false_eq_true, if_false, List.find?, hp']
      exact ih hm

theorem find?_append_new (m : SMap) (k v : Str)
    (hm : m.any (fun q => q.1 == k) = false) :
    (m ++ [(k, v)]).find? (fun q => q.1 == k) = some (k, v) := by
  induction m with
  | nil => simp [List.find?]
  | cons p m ih =>
    simp only [List.any_cons, Bool.or_eq_false_iff] at hm
    simp only [List.cons_append, List.find?, hm.1]
    exact ih hm.2

theorem dictGet_insert (m : SMap) (k v : Str) :
    dictGet (dictInsert m k v) k = some v := by
  by_cases hm : m.any (fun q => q.1 == k) = true
  · simp only [dictInsert, if_pos hm, dictGet, find?_map_insert m k v hm,
      Option.map_some']
  · have hm' : m.any (fun q => q.1 == k) = false := by
      cases h : m.any (fun q => q.1 == k) with
      | true => exact absurd h hm
      | false => rfl
    have hins : dictInsert m k v = m ++ [(k, v)] := by
      simp [dictInsert, hm']
    rw [dictGet, hins, find?_append_new m k v hm']
    rfl

theorem startsWith_https_not_key (l : Str)
    (h : pyStartsWith l ("https://".data) = true) :
    pyStartsWith l ("#EXT-X-KEY".data) = false := by
  cases l with
  | nil => exact absurd h (by decide)
  | cons c rest =>
    have hc : c = 'h' := by
      have h' := h
      rw [show ("https://".data) = 'h' :: ("ttps://".data) from rfl] at h'
      simp only [pyStartsWith, List.isPrefixOf, Bool.and_eq_true, beq_iff_eq] at h'
      exact h'.1.symm
    subst hc
    rw [show ("#EXT-X-KEY".data) = '#' :: ("EXT-X-KEY".data) from rfl]
    simp only [pyStartsWith, List.isPrefixOf]
    rw [show ('#' == 'h') = false from rfl, Bool.false_and]

theorem tryAttempts_fail (oracle : FetchOracle) (hdrs : SMap) (src : Str)
    (hfail : ∀ s h n, oracle s h n = none) :
    ∀ (n idx : Nat), tryAttempts oracle hdrs src n idx = (none, idx + n) := by
  intro n
  induction n with
  | zero => intro idx; simp [tryAttempts]
  | succ m ih =>
    intro idx
    simp only [tryAttempts, hfail]
    rw [ih (idx + 1)]
    have harith : idx + 1 + m = idx + (m + 1) := by omega
    rw [harith]

theorem trySources_fail (oracle : FetchOracle) (hdrs : SMap) (retries : Nat)
    (hfail : ∀ s h n, oracle s h n = none) :
    ∀ (srcs : List Str) (idx : Nat),
      trySources oracle hdrs retries srcs idx
        = (none, idx + retries * srcs.length) := by
  intro srcs
  induction srcs with
  | nil => intro idx; simp [trySources]
  | cons s rest ih =>
    intro idx
    simp only [trySources, tryAttempts_fail oracle hdrs s hfail retries idx]
    rw [ih (idx + retries)]
    have harith : idx + retries + retries * rest.length
        = idx + retries * (rest.length + 1) := by
      rw [Nat.mul_succ]; omega
    simp [harith]

theorem urljoinUriRaises_keybin (base : Str) :
    urljoinUriRaises base ("/a/b/key.bin".data) = false := by
  by_cases h : base = []
  · simp [urljoinUriRaises, h]
  · have hval : urlsplitRaises ("/a/b/key.bin".data) (urlsplit base []).scheme
        = false := rfl
    have hne : (("/a/b/key.bin".data) = ([] : Str)) = False := by
      simp
    simp [urljoinUriRaises, h, hne, hval]

theorem splitOn_single {sep l : Str} (hs : sep ≠ [])
    (h : pyContains l sep = false) : splitOnL sep l = [l] := by
  have hne : (sep == ([] : Str)) = false := by simpa using hs
  simp only [pyContains, hne, Bool.false_or] at h
  have hf : findSub sep l = none := by
    cases hfs : findSub sep l with
    | none => rfl
    | some i => rw [hfs] at h; simp at h
  simp only [splitOnL, if_neg hs]
  cases hl : l.length with
  | zero => rfl
  | succ n => simp [splitOnFuel, hf]

theorem normalizePairs_bad :
    ∀ (ps : List Str), (∃ p ∈ ps, p ≠ [] ∧ pyContains p ("=".data) = false) →
      normalizePairs ps = none := by
  intro ps
  induction ps with
  | nil => rintro ⟨p, hp, _⟩; cases hp
  | cons q qs ih =>
    rintro ⟨p, hp, hne, hnc⟩
    rcases List.mem_cons.mp hp with rfl | hmem
    · have hsplit : splitOnL ("=".data) p = [p] := splitOn_single (by decide) hnc
      simp [normalizePairs, hne, hsplit]
    · by_cases hq : q = []
      · simp only [normalizePairs, if_pos hq]
        exact ih ⟨p, hmem, hne, hnc⟩
      · cases hg : (splitOnL ("=".data) q)[1]? with
        | none => simp [normalizePairs, hq, hg]
        | some v => simp [normalizePairs, hq, hg, ih ⟨p, hmem, hne, hnc⟩]

/-- C5: for every URL and cookie string, if every outbound GET attempt
fails (transport error or non-success status), `fetch_resource` performs
exactly 9 outbound attempts (3 mirror candidates times 3 retries per
candidate, in candidate order) and returns the failure signal `none`;
the operation is total, so no exception escapes it. -/
theorem fetcher_nine_attempts_on_total_failure (url cookies : Str)
    (oracle : FetchOracle) (hfail : ∀ s h n, oracle s h n = none) :
    fetch_resource oracle url cookies 3 0 = (none, 9) := by
  simp only [fetch_resource]
  rw [trySources_fail oracle (fetchHeaders cookies) 3 hfail (mirrorSources url) 0]
  rfl

/-- Witness for C5: a concrete URL and cookie string with an oracle that
always fails yields exactly `(none, 9)`. -/
theorem fetcher_nine_attempts_witness :
    fetch_resource alwaysFailOracle ("https://rr.buytommy.top/a.ts".data)
      ("c".data) 3 0 = (none, 9) :=
  fetcher_nine_attempts_on_total_failure _ _ alwaysFailOracle (fun _ _ _ => rfl)

/-- C8: running the rewrite operation a second time on the same manifest
text and source URL, starting from the segment map the first run left
behind, yields the identical result (same rewritten text outcome and
same final segment map) as the first run. -/
theorem rewrite_idempotent (content url : Str) (m0 : SMap) :
    rewriteManifest content url (rewriteManifest content url m0).2
      = rewriteManifest content url m0 := by
  by_cases h : pyContains content ("#EXTM3U".data) = false
  · simp [rewriteManifest, h]
  · have h' : pyContains content ("#EXTM3U".data) = true := by
      cases hb : pyContains content ("#EXTM3U".data) with
      | true => rfl
      | false => exact absurd hb h
    simp [rewriteManifest, h']

/-- C2: for every direct-URL manifest line whose last path component is
`seg123.js` (schematically `https://host/seg123.js`), the rewrite
replaces the whole line with `/seg123.ts`, and the segment map entry for
`seg123.ts` is either the CORS-proxy-prefix-stripped original URL (when
that URL is on the known direct-media host `flu.streamed.su`) or the
fixed-bucket URL on the panel host templated with the `.js`-suffixed
segment name `seg123.js`. -/
theorem direct_url_line_rewrite (url line : Str) (m : SMap)
    (hpre : pyStartsWith line ("https://".data) = true)
    (hstrip : pyStripWs line = line)
    (hlast : (splitOnL ("/".data) line).getLastD [] = ("seg123.js".data)) :
    ∃ target,
      processLine url line m
          = some ('/' :: ("seg123.ts".data),
              dictInsert m ("seg123.ts".data) target) ∧
      dictGet (dictInsert m ("seg123.ts".data) target) ("seg123.ts".data)
          = some target ∧
      ((pyStartsWith (corsStripped line) ("https://flu.streamed.su".data) = true ∧
          target = corsStripped line) ∨
       (pyStartsWith (corsStripped line) ("https://flu.streamed.su".data) = false ∧
          target = ("https://p2-panel.streamed.su/bucket-44677-gjnru5ktoa/seg123.js".data))) := by
  have hkey := startsWith_https_not_key line hpre
  have hg : (pyStartsWith line ("#EXT-X-KEY".data)
      && pyContains line ("URI=".data)) = false := by
    rw [hkey, Bool.false_and]
  have hlast2 : (splitOnL ("/".data) line).getLast?.getD ([] : Str)
      = ("seg123.js".data) := by
    rw [← List.getLastD_eq_getLast?]; exact hlast
  have hseg : pyReplace ("seg123.js".data) (".js".data) (".ts".data)
      = ("seg123.ts".data) := by decide
  have hbucket : bucketUrl ("seg123.ts".data)
      = ("https://p2-panel.streamed.su/bucket-44677-gjnru5ktoa/seg123.js".data) := by
    decide
  by_cases hflu : pyStartsWith (corsStripped line)
      ("https://flu.streamed.su".data) = true
  · refine ⟨corsStripped line, ?_, dictGet_insert _ _ _, Or.inl ⟨hflu, rfl⟩⟩
    simp [processLine, hg, hpre, hstrip, hlast2, hseg, hflu]
  · have hflu' : pyStartsWith (corsStripped line)
        ("https://flu.streamed.su".data) = false := by
      cases hb : pyStartsWith (corsStripped line)
          ("https://flu.streamed.su".data) with
      | true => exact absurd hb hflu
      | false => rfl
    refine ⟨("https://p2-panel.streamed.su/bucket-44677-gjnru5ktoa/seg123.js".data),
      ?_, dictGet_insert _ _ _, Or.inr ⟨hflu', rfl⟩⟩
    simp [processLine, hg, hpre, hstrip, hlast2, hseg, hflu', hbucket]

/-- Witness for C2: the concrete line `https://rr.buytommy.top/seg123.js`
is rewritten to `/seg123.ts` and, as its CORS-stripped form is not on the
direct-media host, mapped to the fixed-bucket URL. -/
theorem direct_url_line_rewrite_witness :
    ∃ target,
      processLine ("https://x/live.m3u8".data)
          ("https://rr.buytommy.top/seg123.js".data) []
          = some ('/' :: ("seg123.ts".data),
              dictInsert [] ("seg123.ts".data) target) ∧
      dictGet (dictInsert [] ("seg123.ts".data) target) ("seg123.ts".data)
          = some target ∧
      ((pyStartsWith (corsStripped ("https://rr.buytommy.top/seg123.js".data))
            ("https://flu.streamed.su".data) = true ∧
          target = corsStripped ("https://rr.buytommy.top/seg123.js".data)) ∨
       (pyStartsWith (corsStripped ("https://rr.buytommy.top/seg123.js".data))
            ("https://flu.streamed.su".data) = false ∧
          target = ("https://p2-panel.streamed.su/bucket-44677-gjnru5ktoa/seg123.js".data))) :=
  direct_url_line_rewrite ("https://x/live.m3u8".data)
    ("https://rr.buytommy.top/seg123.js".data) []
    (by decide) (by decide) (by decide)

/-- C3: for every key-declaration manifest line whose quoted URI
attribute is `/a/b/key.bin`, the rewrite leaves the line's URI attribute
equal to the original stripped of leading slashes and re-prefixed with
exactly one slash (which is `/a/b/key.bin` again, so the line is
unchanged), and the segment map maps the slash-stripped path
`a/b/key.bin` to the standard relative-URL resolution (`urljoin`) of the
original URI against the manifest's source URL. -/
theorem key_line_rewrite (url line : Str) (m : SMap)
    (hk : pyStartsWith line ("#EXT-X-KEY".data) = true)
    (hu : pyContains line ("URI=".data) = true)
    (he : extractUri line = some ("/a/b/key.bin".data)) :
    processLine url line m
        = some (line, dictInsert m ("a/b/key.bin".data)
            (urljoin url ("/a/b/key.bin".data))) ∧
    dictGet (dictInsert m ("a/b/key.bin".data)
        (urljoin url ("/a/b/key.bin".data))) ("a/b/key.bin".data)
      = some (urljoin url ("/a/b/key.bin".data)) := by
  have hg : (pyStartsWith line ("#EXT-X-KEY".data)
      && pyContains line ("URI=".data)) = true := by
    rw [hk, hu]; rfl
  have hlst : pyLstripChar '/' ("/a/b/key.bin".data) = ("a/b/key.bin".data) := by
    decide
  have hnew : '/' :: ("a/b/key.bin".data) = ("/a/b/key.bin".data) := by decide
  constructor
  · have hsafe := urljoinUriRaises_keybin url
    simp only [processLine, hg, if_true, he, hlst, hsafe, Bool.false_eq_true,
      if_false]
    rw [hnew, pyReplace_self]
  · exact dictGet_insert _ _ _

/-- Witness for C3: a concrete key line with URI `/a/b/key.bin` against a
concrete source URL; the line is unchanged and the map holds the
resolved key URL. -/
theorem key_line_rewrite_witness :
    processLine ("https://example.com/hls/playlist.m3u8".data)
        ("#EXT-X-KEY:METHOD=AES-128,URI=\"/a/b/key.bin\",IV=0x1".data) []
        = some (("#EXT-X-KEY:METHOD=AES-128,URI=\"/a/b/key.bin\",IV=0x1".data),
            dictInsert [] ("a/b/key.bin".data)
              (urljoin ("https://example.com/hls/playlist.m3u8".data)
                ("/a/b/key.bin".data))) ∧
    dictGet (dictInsert [] ("a/b/key.bin".data)
        (urljoin ("https://example.com/hls/playlist.m3u8".data)
          ("/a/b/key.bin".data))) ("a/b/key.bin".data)
      = some (urljoin ("https://example.com/hls/playlist.m3u8".data)
          ("/a/b/key.bin".data)) :=
  key_line_rewrite ("https://example.com/hls/playlist.m3u8".data)
    ("#EXT-X-KEY:METHOD=AES-128,URI=\"/a/b/key.bin\",IV=0x1".data) []
    (by decide) (by decide) (by decide)

/-- C6: for every resource request carrying a (non-empty) `Range` header
whose fetch succeeds with payload `content`, the response has
partial-content status 206, a `Content-Range` header describing the
entire payload (`bytes 0-{len-1}/{len}` with `len` the payload byte
length), the full payload as body regardless of the requested range, an
`Accept-Ranges: bytes` header and a wildcard CORS header. -/
theorem range_request_full_payload (oracle : FetchOracle) (path : Str)
    (queryCookies : Option Str) (r : Str) (st : ProxyState)
    (content ctype : Str)
    (hfetch : (fetch_resource oracle (resolveResourceUrl st.segMap path)
        (queryCookies.getD []) 3 0).1 = some (content, ctype))
    (hr : r ≠ []) :
    (get_resource oracle path queryCookies (some r) st).resp.status = 206 ∧
    (get_resource oracle path queryCookies (some r) st).resp.body = content ∧
    dictGet (get_resource oracle path queryCookies (some r) st).resp.headers
        ("Content-Range".data)
      = some (("bytes 0-".data) ++ (toString ((utf8LenNat content : Int) - 1)).data ++
          ('/' :: (toString (utf8LenNat content)).data)) ∧
    dictGet (get_resource oracle path queryCookies (some r) st).resp.headers
        ("Accept-Ranges".data) = some ("bytes".data) ∧
    dictGet (get_resource oracle path queryCookies (some r) st).resp.headers
        ("Access-Control-Allow-Origin".data) = some ("*".data) := by
  have htr : truthyOpt (some r) = true := by
    simp [truthyOpt, hr]
  have hres : get_resource oracle path queryCookies (some r) st
      = ⟨⟨206, content, some ctype,
          [("Access-Control-Allow-Origin".data, "*".data),
           ("Accept-Ranges".data, "bytes".data),
           ("Content-Range".data, contentRangeVal content)]⟩,
         st, fetchHeaders (queryCookies.getD []),
         resolveResourceUrl st.segMap path,
         (fetch_resource oracle (resolveResourceUrl st.segMap path)
           (queryCookies.getD []) 3 0).2⟩ := by
    simp only [get_resource, hfetch, htr, if_true]
  rw [hres]
  exact ⟨rfl, rfl, rfl, rfl, rfl⟩

/-- Witness for C6: a concrete range request for `seg1.ts` with an
always-succeeding oracle produces a 206 with `Content-Range`
`bytes 0-3/4` over the whole 4-byte payload. -/
theorem range_request_full_payload_witness :
    (get_resource alwaysOkOracle ("seg1.ts".data) (some ("a%3D1".data))
        (some ("bytes=0-99".data)) ⟨[], none⟩).resp.status = 206 ∧
    (get_resource alwaysOkOracle ("seg1.ts".data) (some ("a%3D1".data))
        (some ("bytes=0-99".data)) ⟨[], none⟩).resp.body = ("DATA".data) ∧
    dictGet (get_resource alwaysOkOracle ("seg1.ts".data) (some ("a%3D1".data))
        (some ("bytes=0-99".data)) ⟨[], none⟩).resp.headers ("Content-Range".data)
      = some (("bytes 0-".data) ++ (toString ((utf8LenNat ("DATA".data) : Int) - 1)).data ++
          ('/' :: (toString (utf8LenNat ("DATA".data))).data)) ∧
    dictGet (get_resource alwaysOkOracle ("seg1.ts".data) (some ("a%3D1".data))
        (some ("bytes=0-99".data)) ⟨[], none⟩).resp.headers ("Accept-Ranges".data)
      = some ("bytes".data) ∧
    dictGet (get_resource alwaysOkOracle ("seg1.ts".data) (some ("a%3D1".data))
        (some ("bytes=0-99".data)) ⟨[], none⟩).resp.headers
        ("Access-Control-Allow-Origin".data) = some ("*".data) :=
  range_request_full_payload alwaysOkOracle ("seg1.ts".data)
    (some ("a%3D1".data)) ("bytes=0-99".data) ⟨[], none⟩
    ("DATA".data) ("video/mp2t".data) (by decide) (by decide)

/-- C9: if cookie normalisation succeeds and the fetched manifest body
lacks the `#EXTM3U` marker, the manifest route responds 500 and the
whole program state (in particular every segment-map entry populated by
the previously served manifest) is left unchanged: the map is cleared
only after the validity check passes. -/
theorem invalid_manifest_preserves_map (oracle : FetchOracle)
    (loc : Option Str) (net : Option (Option Str)) (url raw : Str)
    (st : ProxyState) (ck content ctype : Str)
    (hn : normalizeCookies raw = some ck)
    (hf : (fetch_resource oracle url ck 3 0).1 = some (content, ctype))
    (hm : pyContains content ("#EXTM3U".data) = false) :
    (get_playlist oracle loc net url raw st).resp.status = 500 ∧
    (get_playlist oracle loc net url raw st).state = st := by
  have hrw : rewriteManifest content url st.segMap
      = (Except.error RewriteError.invalidManifest, st.segMap) := by
    simp [rewriteManifest, hm]
  have hres : get_playlist oracle loc net url raw st
      = ⟨errorResponse ("Error fetching M3U8".data),
          ⟨st.segMap, st.cachedCookies⟩,
          (fetch_resource oracle url ck 3 0).2, 0, 0⟩ := by
    simp only [get_playlist, hn, hf, finishPlaylist, hrw]
  rw [hres]
  exact ⟨rfl, rfl⟩

/-- Witness for C9: concretely, a fetched body `"not a playlist"`
produces a 500 and leaves a previously populated segment map intact. -/
theorem invalid_manifest_preserves_map_witness :
    (get_playlist (fun _ _ _ => some ("not a playlist".data, none)) none none
        ("https://x/l.m3u8".data) ("a%3D1".data)
        ⟨[("old.ts".data, "https://x/old.js".data)], none⟩).resp.status = 500 ∧
    (get_playlist (fun _ _ _ => some ("not a playlist".data, none)) none none
        ("https://x/l.m3u8".data) ("a%3D1".data)
        ⟨[("old.ts".data, "https://x/old.js".data)], none⟩).state
      = ⟨[("old.ts".data, "https://x/old.js".data)], none⟩ :=
  invalid_manifest_preserves_map (fun _ _ _ => some ("not a playlist".data, none))
    none none ("https://x/l.m3u8".data) ("a%3D1".data)
    ⟨[("old.ts".data, "https://x/old.js".data)], none⟩
    ("a=1".data) ("not a playlist".data) defaultContentType
    (by decide) (by decide) (by decide)

/-- C10: for every request to the manifest route whose decoded-and-
normalised cookies string contains a non-empty `"; "`-separated pair
with no `'='` character (for example `cookies=abc`), the
cookie-normalisation step raises an indexing error before any upstream
traffic: the route responds 500 with zero fetch attempts, zero
landing-page requests, zero handshake requests, and unchanged state. -/
theorem malformed_cookie_pair_500 (raw : Str)
    (hbad : ∃ p ∈ splitOnL ("; ".data) (cookieDecoded raw),
        p ≠ [] ∧ pyContains p ("=".data) = false) :
    ∀ (oracle : FetchOracle) (loc : Option Str) (net : Option (Option Str))
      (url : Str) (st : ProxyState),
      (get_playlist oracle loc net url raw st).resp.status = 500 ∧
      (get_playlist oracle loc net url raw st).resourceAttempts = 0 ∧
      (get_playlist oracle loc net url raw st).locatorCalls = 0 ∧
      (get_playlist oracle loc net url raw st).handshakeCalls = 0 ∧
      (get_playlist oracle loc net url raw st).state = st := by
  have hnorm : normalizeCookies raw = none := by
    simp only [normalizeCookies,
      normalizePairs_bad (splitOnL ("; ".data) (cookieDecoded raw)) hbad,
      Option.map_none']
  intro oracle loc net url st
  simp [get_playlist, hnorm, errorResponse]

/-- Witness for C10: the concrete query value `abc` decodes to a single
pair without `'='`; the route answers 500 and no outbound request of any
kind is made. -/
theorem malformed_cookie_pair_500_witness :
    (get_playlist alwaysOkOracle none none ("https://x/l.m3u8".data)
        ("abc".data) ⟨[], none⟩).resp.status = 500 ∧
    (get_playlist alwaysOkOracle none none ("https://x/l.m3u8".data)
        ("abc".data) ⟨[], none⟩).resourceAttempts = 0 ∧
    (get_playlist alwaysOkOracle none none ("https://x/l.m3u8".data)
        ("abc".data) ⟨[], none⟩).locatorCalls = 0 ∧
    (get_playlist alwaysOkOracle none none ("https://x/l.m3u8".data)
        ("abc".data) ⟨[], none⟩).handshakeCalls = 0 ∧
    (get_playlist alwaysOkOracle none none ("https://x/l.m3u8".data)
        ("abc".data) ⟨[], none⟩).state = ⟨[], none⟩ :=
  malformed_cookie_pair_500 ("abc".data) (by decide) alwaysOkOracle none none
    ("https://x/l.m3u8".data) ⟨[], none⟩

/-- C7: whenever the cookie cache is populated (a non-empty string),
`fetch_cookies` returns the cached value immediately with zero handshake
requests and leaves the cache unchanged; moreover no operation of the
program ever changes a populated cache — the manifest route preserves it
(in particular after any failed fetch) and the resource route never
touches the global state at all. -/
theorem cookie_cache_stability (s : Str) (hs : s ≠ []) :
    (∀ net, fetch_cookies (some s) net = (some s, some s, 0)) ∧
    (∀ (oracle : FetchOracle) (loc : Option Str) (net : Option (Option Str))
        (url raw : Str) (st : ProxyState), st.cachedCookies = some s →
      (get_playlist oracle loc net url raw st).state.cachedCookies = some s) ∧
    (∀ (oracle : FetchOracle) (path : Str) (qc rh : Option Str)
        (st : ProxyState),
      (get_resource oracle path qc rh st).state = st) := by
  have htr : truthyOpt (some s) = true := by simp [truthyOpt, hs]
  have hfc : ∀ net, fetch_cookies (some s) net = (some s, some s, 0) := by
    intro net
    simp [fetch_cookies, htr]
  refine ⟨hfc, ?_, ?_⟩
  · intro oracle loc net url raw st hc
    cases hn : normalizeCookies raw with
    | none => simp [get_playlist, hn, hc]
    | some ck =>
      cases hf : (fetch_resource oracle url ck 3 0).1 with
      | some p =>
        obtain ⟨content, t⟩ := p
        cases hrw : (rewriteManifest content url st.segMap).1 with
        | ok text => simp [get_playlist, hn, hf, finishPlaylist, hrw, hc]
        | error e => simp [get_playlist, hn, hf, finishPlaylist, hrw, hc]
      | none =>
        have hcres : fetch_cookies st.cachedCookies net = (some s, some s, 0) := by
          rw [hc]; exact hfc net
        by_cases hloc : truthyOpt loc = false
        · simp [get_playlist, hn, hf, hcres, hloc]
        · have hloc' : truthyOpt loc = true := by
            cases hb : truthyOpt loc with
            | true => rfl
            | false => exact absurd hb hloc
          cases hf2 : (fetch_resource oracle (loc.getD []) s 3
              (fetch_resource oracle url ck 3 0).2).1 with
          | none => simp [get_playlist, hn, hf, hcres, hloc', htr, hf2]
          | some p2 =>
            obtain ⟨content2, t2⟩ := p2
            cases hrw : (rewriteManifest content2 url st.segMap).1 with
            | ok text =>
              simp [get_playlist, hn, hf, hcres, hloc', htr, hf2,
                finishPlaylist, hrw]
            | error e =>
              simp [get_playlist, hn, hf, hcres, hloc', htr, hf2,
                finishPlaylist, hrw]
  · intro oracle path qc rh st
    cases hf : (fetch_resource oracle (resolveResourceUrl st.segMap path)
        (qc.getD []) 3 0).1 with
    | none => simp [get_resource, hf]
    | some p =>
      obtain ⟨content, t⟩ := p
      by_cases ht : truthyOpt rh = true
      · simp [get_resource, hf, ht]
      · have ht' : truthyOpt rh = false := by
          cases hb : truthyOpt rh with
          | true => exact absurd hb ht
          | false => rfl
        simp [get_resource, hf, ht']

/-- Witness for C7: with the cache concretely holding `ddg8_=x`, the
authenticator returns it with no handshake, and both routes preserve
it. -/
theorem cookie_cache_stability_witness :
    (∀ net, fetch_cookies (some ("ddg8_=x".data)) net
        = (some ("ddg8_=x".data), some ("ddg8_=x".data), 0)) ∧
    (∀ (oracle : FetchOracle) (loc : Option Str) (net : Option (Option Str))
        (url raw : Str) (st : ProxyState),
        st.cachedCookies = some ("ddg8_=x".data) →
      (get_playlist oracle loc net url raw st).state.cachedCookies
        = some ("ddg8_=x".data)) ∧
    (∀ (oracle : FetchOracle) (path : Str) (qc rh : Option Str)
        (st : ProxyState),
      (get_resource oracle path qc rh st).state = st) :=
  cookie_cache_stability ("ddg8_=x".data) (by decide)

/-- C1 (code evaluated at the failing input): on a request for `seg1.ts`
with query cookie `a%3D1` and header `Range: bytes=0-99`, the headers the
Fetcher actually sends upstream contain no `Range` key and carry the
cookie string raw (`a%3D1`), although its URL-decoding is `a=1`: the
local header dict built with the decoded cookie and the Range header
(src/main.py lines 212-217) is never passed to `fetch_resource`. -/
theorem dispatcher_sends_raw_cookie_without_range :
    dictGet (get_resource alwaysOkOracle ("seg1.ts".data)
        (some ("a%3D1".data)) (some ("bytes=0-99".data)) ⟨[], none⟩).sentHeaders
        ("Range".data) = none ∧
    dictGet (get_resource alwaysOkOracle ("seg1.ts".data)
        (some ("a%3D1".data)) (some ("bytes=0-99".data)) ⟨[], none⟩).sentHeaders
        ("Cookie".data) = some ("a%3D1".data) ∧
    pyUnquote ("a%3D1".data) = ("a=1".data) ∧
    (get_resource alwaysOkOracle ("seg1.ts".data) (some ("a%3D1".data))
        (some ("bytes=0-99".data)) ⟨[], none⟩).upstreamUrl
      = ("https://rr.buytommy.top/seg1.js".data) :=
  ⟨by decide, by decide, by decide, by decide⟩
